import Mathlib

/-!
Verification of the API-executor core of the chat-app repository.

The executable code under verification is the Python embedded in
`enhanced_api_executor_fixes.py` (the `execute_custom_api`,
`node_api_exec` and `execute_api_request` functions).  The definitions
below are a shallow embedding of that code: the network is modelled as
an explicit `transport` oracle mapping the single outgoing HTTP call to
an outcome (a response or a raised `requests` exception), and each
executor returns the pair of its result and the trace of HTTP calls it
issued, so that "zero network activity" and "what was attached to the
outgoing call" are directly statable.
-/

/-- JSON values, as produced by Python `json.loads` (numbers are modelled
as integers; see `jsonLoads`). -/
inductive Json where
  | null : Json
  | bool : Bool → Json
  | num : Int → Json
  | str : String → Json
  | arr : List Json → Json
  | obj : List (String × Json) → Json

/-- Python truthiness of a JSON value (`bool(x)`): `None`, `False`, `0`,
`""`, `[]` and `\x7b\x7d` are falsy, everything else truthy. -/
def Json.isTruthy : Json → Bool
  | .null => false
  | .bool b => b
  | .num n => decide (n ≠ 0)
  | .str s => decide (s ≠ "")
  | .arr xs => !xs.isEmpty
  | .obj kvs => !kvs.isEmpty

/-- Python `not x` for an optional JSON value (`None` or a value). -/
def pyNotOptJson : Option Json → Bool
  | none => true
  | some j => !j.isTruthy

/-- Does the character list start with the given pattern?  (Used to model
Python substring containment.) -/
def startsWithChars : List Char → List Char → Bool
  | [], _ => true
  | _ :: _, [] => false
  | a :: as, b :: bs => a = b && startsWithChars as bs

/-- Contiguous-substring test on character lists, modelling Python
`pat in s`. -/
def hasSubChars (pat : List Char) : List Char → Bool
  | [] => pat.isEmpty
  | b :: bs => startsWithChars pat (b :: bs) || hasSubChars pat bs

/-- Python `pat in s` on strings (contiguous substring containment). -/
def strContainsSub (s pat : String) : Bool :=
  hasSubChars pat.data s.data

/-- Python `str.lower()` (ASCII, which covers every string the code uses). -/
def lowerStr (s : String) : String := String.mk (s.data.map Char.toLower)

/-- Python `str.upper()` (ASCII). -/
def upperStr (s : String) : String := String.mk (s.data.map Char.toUpper)

/-- Python `x or default` for an optional string (`None` and `""` are falsy). -/
def pyOrStr (x : Option String) (dflt : String) : String :=
  match x with
  | none => dflt
  | some s => if s = "" then dflt else s

/-- Python truthiness of an optional string. -/
def truthyOptStr : Option String → Bool
  | none => false
  | some s => decide (s ≠ "")

/-- `k in d` for an association list modelling a Python dict. -/
def containsKey (l : List (String × String)) (k : String) : Bool :=
  l.any (fun p => p.1 == k)

/-- `d.setdefault(k, v)`-style insertion used by the executor:
`if k not in headers: headers[k] = v` (dict assignment appends a fresh
key at the end, preserving insertion order). -/
def setDefaultHeader (l : List (String × String)) (k v : String) : List (String × String) :=
  if containsKey l k then l else l ++ [(k, v)]

/-- Scheme extraction of Python `urllib.parse.urlparse`: the text before
the first `:` is the scheme when it is non-empty, starts with a letter
and contains only letters, digits, `+`, `-`, `.`; it is lowercased.
Otherwise the scheme is the empty string. -/
def urlScheme (url : String) : String :=
  match url.data.findIdx? (· = ':') with
  | none => ""
  | some i =>
    match url.data.take i with
    | [] => ""
    | c :: rest =>
      if c.isAlpha && (c :: rest).all (fun d => d.isAlphanum || d = '+' || d = '-' || d = '.')
      then String.mk ((c :: rest).map Char.toLower)
      else ""

/-! ### A model of Python `json.loads`

Executable recursive-descent parser over the JSON grammar, used both for
request-body normalization and response parsing.  Modelling limitations
(documented, not relied on by any theorem): numbers are parsed as
integers, so a fractional or exponent part makes the parse fail here
where Python would produce a float; `NaN`/`Infinity` are not accepted;
leading zeros are not rejected. -/

/-- Skip JSON whitespace (space, tab, newline, carriage return). -/
def skipWs : List Char → List Char
  | c :: rest =>
    if c = ' ' || c = '\t' || c = '\n' || c = '\r' then skipWs rest else c :: rest
  | [] => []

/-- Drop an expected literal from the input, or fail. -/
def dropLit : List Char → List Char → Option (List Char)
  | [], cs => some cs
  | l :: ls, c :: cs => if c = l then dropLit ls cs else none
  | _ :: _, [] => none

/-- Value of a hexadecimal digit, by character code: `0`-`9` are codes
48-57, `a`-`f` codes 97-102, `A`-`F` codes 65-70. -/
def hexVal (c : Char) : Option Nat :=
  let n := c.toNat
  if 48 ≤ n ∧ n ≤ 57 then some (n - 48)
  else if 97 ≤ n ∧ n ≤ 102 then some (n - 87)
  else if 65 ≤ n ∧ n ≤ 70 then some (n - 55)
  else none

/-- Single-character JSON escapes. -/
def escChar (c : Char) : Option Char :=
  if c = '"' then some '"'
  else if c = '\\' then some '\\'
  else if c = '/' then some '/'
  else if c = 'n' then some '\n'
  else if c = 't' then some '\t'
  else if c = 'r' then some '\r'
  else if c = 'b' then some (Char.ofNat 8)
  else if c = 'f' then some (Char.ofNat 12)
  else none

/-- Read the body of a JSON string after its opening quote; returns the
decoded characters and the rest of the input after the closing quote. -/
def readStrChars : List Char → Option (List Char × List Char)
  | [] => none
  | c :: rest =>
    if c = '"' then some ([], rest)
    else if c = '\\' then
      match rest with
      | [] => none
      | e :: rest2 =>
        if e = 'u' then
          match rest2 with
          | h1 :: h2 :: h3 :: h4 :: rest3 =>
            match hexVal h1, hexVal h2, hexVal h3, hexVal h4 with
            | some a, some b, some c2, some d =>
              (readStrChars rest3).map (fun p => (Char.ofNat (((a * 16 + b) * 16 + c2) * 16 + d) :: p.1, p.2))
            | _, _, _, _ => none
          | _ => none
        else
          match escChar e with
          | some ec => (readStrChars rest2).map (fun p => (ec :: p.1, p.2))
          | none => none
    else (readStrChars rest).map (fun p => (c :: p.1, p.2))

/-- Read consecutive decimal digits, accumulating a natural number. -/
def readDigits : List Char → Nat → Nat × List Char
  | c :: rest, acc =>
    if c.isDigit then readDigits rest (acc * 10 + (c.toNat - '0'.toNat)) else (acc, c :: rest)
  | [], acc => (acc, [])

/-- Parse an optionally negated integer token. -/
def parseIntTok : List Char → Option (Int × List Char)
  | '-' :: rest =>
    match rest with
    | c :: _ =>
      if c.isDigit then
        let p := readDigits rest 0
        some (-(p.1 : Int), p.2)
      else none
    | [] => none
  | c :: rest =>
    if c.isDigit then
      let p := readDigits (c :: rest) 0
      some ((p.1 : Int), p.2)
    else none
  | [] => none

/-- Parse a quoted object key followed by `:`.  Returns the key and the
input positioned at the member's value. -/
def parseKeyColon (cs : List Char) : Option (String × List Char) :=
  match skipWs cs with
  | '"' :: r =>
    match readStrChars r with
    | some (key, r2) =>
      match skipWs r2 with
      | ':' :: r3 => some (String.mk key, r3)
      | _ => none
    | none => none
  | _ => none

/-- Parser modes: a single value, the tail of an array after one element
(`, v`* `]`), or the tail of an object after one member. -/
inductive PTag where
  | val
  | arrTail
  | objTail

/-- Parser results, one constructor per mode. -/
inductive PRes where
  | one : Json → PRes
  | many : List Json → PRes
  | fields : List (String × Json) → PRes

/-- Fueled recursive-descent step of the JSON parser. -/
def pstep : Nat → PTag → List Char → Option (PRes × List Char)
  | 0, _, _ => none
  | n + 1, .val, cs =>
    match skipWs cs with
    | [] => none
    | c :: rest =>
      if c = 'n' then (dropLit ['u', 'l', 'l'] rest).map (fun r => (.one .null, r))
      else if c = 't' then (dropLit ['r', 'u', 'e'] rest).map (fun r => (.one (.bool true), r))
      else if c = 'f' then (dropLit ['a', 'l', 's', 'e'] rest).map (fun r => (.one (.bool false), r))
      else if c = '"' then
        (readStrChars rest).map (fun p => (.one (.str (String.mk p.1)), p.2))
      else if c = '[' then
        match skipWs rest with
        | ']' :: r => some (.one (.arr []), r)
        | other =>
          match pstep n .val other with
          | some (.one v, rem) =>
            match pstep n .arrTail rem with
            | some (.many vs, rem2) => some (.one (.arr (v :: vs)), rem2)
            | _ => none
          | _ => none
      else if c = '\x7b' then
        match skipWs rest with
        | '\x7d' :: r => some (.one (.obj []), r)
        | other =>
          match parseKeyColon other with
          | some (key, r2) =>
            match pstep n .val r2 with
            | some (.one v, rem) =>
              match pstep n .objTail rem with
              | some (.fields fs, rem2) => some (.one (.obj ((key, v) :: fs)), rem2)
              | _ => none
            | _ => none
          | none => none
      else if c = '-' || c.isDigit then
        (parseIntTok (c :: rest)).map (fun p => (.one (.num p.1), p.2))
      else none
  | n + 1, .arrTail, cs =>
    match skipWs cs with
    | ']' :: r => some (.many [], r)
    | ',' :: r =>
      match pstep n .val r with
      | some (.one v, rem) =>
        match pstep n .arrTail rem with
        | some (.many vs, rem2) => some (.many (v :: vs), rem2)
        | _ => none
      | _ => none
    | _ => none
  | n + 1, .objTail, cs =>
    match skipWs cs with
    | '\x7d' :: r => some (.fields [], r)
    | ',' :: r =>
      match parseKeyColon r with
      | some (key, r2) =>
        match pstep n .val r2 with
        | some (.one v, rem) =>
          match pstep n .objTail rem with
          | some (.fields fs, rem2) => some (.fields ((key, v) :: fs), rem2)
          | _ => none
        | _ => none
      | none => none
    | _ => none

/-- Model of Python `json.loads`: parse one JSON value and require that
only whitespace remains.  Failure (`none`) models the raised
`JSONDecodeError`. -/
def jsonLoads (s : String) : Option Json :=
  match pstep (2 * s.data.length + 8) .val s.data with
  | some (.one v, rem) => if (skipWs rem).isEmpty then some v else none
  | _ => none

/-! ### Data model of the Executor (from `enhanced_api_executor_fixes.py`) -/

/-- The `body` field of a `CustomApiExecuteRequest`: either a structured
value (`isinstance(req.body, (dict, list))`) or anything else, carried
through Python `str(...)`. -/
inductive Body where
  | structured : Json → Body
  | strval : String → Body

/-- Python truthiness of `req.body` (line 43 of the source: a non-`None`
falsy body, such as `""` or an empty dict, does not trigger the JSON
Content-Type default). -/
def truthyOptBody : Option Body → Bool
  | none => false
  | some (.structured j) => j.isTruthy
  | some (.strval s) => decide (s ≠ "")

/-- The request accepted by `execute_custom_api` (the
`CustomApiExecuteRequest` shape).  `query_params` and `headers` model
`dict(x or \x7b\x7d)` so `None` and the empty dict coincide on `[]`. -/
structure CustomApiExecuteRequest where
  base_url : String
  method : Option String
  query_params : List (String × String)
  param_key : Option String
  param_value : Option String
  body : Option Body
  headers : List (String × String)

/-- The dict passed to `execute_api_request` by `node_api_exec`
(`base_url`, `method`, `query_params`, `body`, `headers` all present). -/
structure RequestData where
  base_url : String
  method : String
  query_params : List (String × String)
  body : Option Json
  headers : List (String × String)

/-- One outgoing HTTP call handed to the `requests` library: the method,
URL, `params=` keyword (`none` mirrors passing `None`), `json=` payload,
`data=` raw payload and headers.  Every call in the source also carries
`timeout=30` and follows redirects, so those are not recorded. -/
structure HttpCall where
  method : String
  url : String
  params : Option (List (String × String))
  json_body : Option Json
  body_data : Option String
  headers : List (String × String)

/-- An HTTP response as seen through a `requests.Response`:
`status_code`, final `url` after redirects, body `text` and headers. -/
structure HttpResponse where
  status_code : Nat
  url : String
  text : String
  headers : List (String × String)

/-- What the transport does with a call: return a response, or raise one
of the `requests` exception classes the source distinguishes (each
carrying its `str(e)` message). -/
inductive TransportOutcome where
  | response : HttpResponse → TransportOutcome
  | timeout : String → TransportOutcome
  | connectionError : String → TransportOutcome
  | requestError : String → TransportOutcome
  | otherError : String → TransportOutcome

/-- A raised FastAPI `HTTPException` (status code and detail). -/
structure HTTPException where
  status_code : Nat
  detail : String

/-- The `response_data` dict returned by `execute_custom_api` on success.
Optional fields model keys that are only conditionally inserted. -/
structure ResponseData where
  success : Bool
  status : Nat
  url : String
  method : String
  headers : List (String × String)
  data : Option Json
  text : Option String
  content_type : String
  request_headers : List (String × String)
  request_body : Option Json
  request_params : Option (List (String × String))

/-- The dict returned by `execute_api_request`: either a normal result
(`error = none`) or the exception fallback
`\x7b"success": False, "error": str(e), "status": 0\x7d`. -/
structure ExecResult where
  success : Bool
  status : Nat
  url : Option String
  method : Option String
  data : Option Json
  text : Option String
  error : Option String

/-- `requests.Response.ok`: `raise_for_status` raises exactly for status
codes in `[400, 600)`, so `ok` is true for every other status. -/
def response_ok (status : Nat) : Bool :=
  if 400 ≤ status ∧ status < 600 then false else true

/-- Lines 33-36 of the source: merge `query_params` with the optional
`param_key`/`param_value` pair (only when both are truthy and the key is
absent). -/
def merged_params (req : CustomApiExecuteRequest) : List (String × String) :=
  let params := req.query_params
  if truthyOptStr req.param_key && truthyOptStr req.param_value
      && !containsKey params (req.param_key.getD "") then
    params ++ [(req.param_key.getD "", req.param_value.getD "")]
  else params

/-- A `str → str` params dict viewed as the JSON object `requests` would
serialize when it is passed through the `json=` keyword. -/
def params_as_json (ps : List (String × String)) : Json :=
  Json.obj (ps.map (fun p => (p.1, Json.str p.2)))

/-- The message of the Python `UnboundLocalError` raised at line 114
(`if json_body:`) on the GET and unknown-method paths, where the local
`json_body` is never assigned.  The exact wording varies with the Python
version; no theorem depends on this text. -/
def unboundLocalDetail : String :=
  "local variable json_body referenced before assignment"

/-- Lines 52-91 of `execute_custom_api`: build the outgoing HTTP call for
the normalized method.  The second field models the Python local
`json_body`: `none` when the GET or fallback branch ran (the local was
never assigned), `some jb` when the POST/PUT/PATCH/DELETE branch bound
it to `jb`. -/
def build_call (req : CustomApiExecuteRequest) (method : String)
    (params : List (String × String)) (headers : List (String × String)) :
    HttpCall × Option (Option Json) :=
  if method = "GET" then
    ({ method := "GET", url := req.base_url,
       params := if params.isEmpty then none else some params,
       json_body := none, body_data := none, headers := headers }, none)
  else if method = "POST" ∨ method = "PUT" ∨ method = "PATCH" ∨ method = "DELETE" then
    let jd : Option Json × Option String :=
      match req.body with
      | some (.structured j) => (some j, none)
      | some (.strval s) =>
        match jsonLoads s with
        | some v => (some v, none)
        | none => (none, some s)
      | none => ((if params.isEmpty then none else some (params_as_json params)), none)
    ({ method := method, url := req.base_url,
       params := if method = "DELETE" ∧ pyNotOptJson jd.1 then some params else none,
       json_body := jd.1, body_data := jd.2, headers := headers }, some jd.1)
  else
    ({ method := "GET", url := req.base_url,
       params := if params.isEmpty then none else some params,
       json_body := none, body_data := none, headers := headers }, none)

/-- Lines 93-128 of `execute_custom_api`: response normalization and the
`except` ladder.  When a response arrived, the `response_data` dict is
assembled; reading the local `json_body` at line 114 raises
`UnboundLocalError` when it was never bound (GET and unknown-method
branches), which the final `except Exception` clause converts into a 500
`HTTPException`. -/
def dispatchOutcome (outcome : TransportOutcome) (jbLocal : Option (Option Json))
    (method : String) (headers : List (String × String))
    (params : List (String × String)) : Except HTTPException ResponseData :=
  match outcome with
  | .response r =>
    match jbLocal with
    | none => .error ⟨500, "Internal error: " ++ unboundLocalDetail⟩
    | some jb =>
      Except.ok
        { success := response_ok r.status_code
          status := r.status_code
          url := r.url
          method := method
          headers := r.headers
          data := match jsonLoads r.text with | some v => some v | none => none
          text := match jsonLoads r.text with | some _ => none | none => some r.text
          content_type := match jsonLoads r.text with | some _ => "json" | none => "text"
          request_headers := headers
          request_body := match jb with | some v => if v.isTruthy then some v else none | none => none
          request_params := if params.isEmpty then none else some params }
  | .timeout _ => .error ⟨408, "API request timed out"⟩
  | .connectionError _ => .error ⟨502, "Failed to connect to API endpoint"⟩
  | .requestError m => .error ⟨502, "API request failed: " ++ m⟩
  | .otherError m => .error ⟨500, "Internal error: " ++ m⟩

/-- `execute_custom_api` (lines 21-128 of the source): validate the URL
scheme, merge params, normalize method, inject default headers, issue
the call through `transport` and normalize the outcome.  An `Except`
error models a raised `HTTPException`; the second component is the trace
of HTTP calls issued. -/
def execute_custom_api (transport : HttpCall → TransportOutcome)
    (req : CustomApiExecuteRequest) :
    Except HTTPException ResponseData × List HttpCall :=
  if urlScheme req.base_url = "http" ∨ urlScheme req.base_url = "https" then
    let params := merged_params req
    let method := upperStr (pyOrStr req.method "GET")
    let headers0 :=
      if (method = "POST" ∨ method = "PUT" ∨ method = "PATCH") ∧ truthyOptBody req.body then
        setDefaultHeader req.headers "Content-Type" "application/json"
      else req.headers
    let headers := setDefaultHeader headers0 "User-Agent" "Multi-Agent-Chatbot/1.0"
    let bc := build_call req method params headers
    (dispatchOutcome (transport bc.1) bc.2 method headers params, [bc.1])
  else
    (.error ⟨400, "Only http/https URLs are allowed"⟩, [])

/-- Lines 265-272 of `execute_api_request`: the outgoing call (GET,
one of the four body-capable methods, or the unknown-method fallback
GET). -/
def built_request_call (rd : RequestData) (method : String)
    (headers : List (String × String)) : HttpCall :=
  if method = "GET" then
    { method := "GET", url := rd.base_url, params := some rd.query_params,
      json_body := none, body_data := none, headers := headers }
  else if method = "POST" ∨ method = "PUT" ∨ method = "PATCH" ∨ method = "DELETE" then
    { method := method, url := rd.base_url, params := some rd.query_params,
      json_body := rd.body, body_data := none, headers := headers }
  else
    { method := "GET", url := rd.base_url, params := some rd.query_params,
      json_body := none, body_data := none, headers := headers }

/-- Lines 274-294 of `execute_api_request`: result normalization, with
the blanket `except Exception` clause producing
`\x7b"success": False, "error": str(e), "status": 0\x7d`. -/
def finish_request (outcome : TransportOutcome) (method : String) : ExecResult :=
  match outcome with
  | .response r =>
    { success := response_ok r.status_code
      status := r.status_code
      url := some r.url
      method := some method
      data := match jsonLoads r.text with | some v => some v | none => none
      text := match jsonLoads r.text with | some _ => none | none => some r.text
      error := none }
  | .timeout m | .connectionError m | .requestError m | .otherError m =>
    { success := false, status := 0, url := none, method := none,
      data := none, text := none, error := some m }

/-- `execute_api_request` (lines 252-294 of the source). -/
def execute_api_request (transport : HttpCall → TransportOutcome)
    (rd : RequestData) : ExecResult × List HttpCall :=
  let method := upperStr rd.method
  let headers := setDefaultHeader rd.headers "User-Agent" "Multi-Agent-Chatbot/1.0"
  let call := built_request_call rd method headers
  (finish_request (transport call) method, [call])

/-! ### The Intent Router fragment of `node_api_exec` (lines 157-209) -/

/-- The `api_keywords` dict of `node_api_exec`, in its insertion order
(which is the iteration order of a Python dict). -/
def api_keywords : List (String × List String) :=
  [("put", ["put", "update", "modify", "change", "edit"]),
   ("post", ["post", "create", "add", "submit", "send"]),
   ("patch", ["patch", "partial", "modify"]),
   ("delete", ["delete", "remove", "destroy"]),
   ("get", ["get", "fetch", "retrieve", "read"])]

/-- `any(keyword in user_msg.lower() for keyword in keywords)`. -/
def kwHit (user_msg : String) (keywords : List String) : Bool :=
  keywords.any (fun kw => strContainsSub (lowerStr user_msg) kw)

/-- Lines 165-169: the detection loop over `api_keywords`, breaking at
the first category with any keyword hit and upper-casing its name. -/
def detect_method (user_msg : String) : Option String :=
  (api_keywords.find? (fun p => kwHit user_msg p.2)).map (fun p => upperStr p.1)

/-- Modelled from the spec: evaluate the method categories in the fixed
priority order PUT, POST, PATCH, DELETE, GET and take the first category
with any keyword match. -/
def priority_detect (user_msg : String) : Option String :=
  if kwHit user_msg ["put", "update", "modify", "change", "edit"] then some "PUT"
  else if kwHit user_msg ["post", "create", "add", "submit", "send"] then some "POST"
  else if kwHit user_msg ["patch", "partial", "modify"] then some "PATCH"
  else if kwHit user_msg ["delete", "remove", "destroy"] then some "DELETE"
  else if kwHit user_msg ["get", "fetch", "retrieve", "read"] then some "GET"
  else none

/-- The inner part of the regex `\x7b[^\x7b\x7d]*\x7d`: characters up to
the next brace, succeeding only when that brace closes the candidate. -/
def innerUntilBrace : List Char → Option (List Char)
  | [] => none
  | c :: rest =>
    if c = '\x7d' then some []
    else if c = '\x7b' then none
    else (innerUntilBrace rest).map (c :: ·)

/-- `re.findall(r'\x7b[^\x7b\x7d]*\x7d', user_msg)[0]`: the leftmost
brace-delimited candidate with no nested braces, if any. -/
def firstJsonCandidate : List Char → Option String
  | [] => none
  | c :: rest =>
    if c = '\x7b' then
      match innerUntilBrace rest with
      | some inner => some (String.mk ('\x7b' :: (inner ++ ['\x7d'])))
      | none => firstJsonCandidate rest
    else firstJsonCandidate rest

/-- Lines 193-200 of `node_api_exec`: extract the first JSON candidate
from the message and parse it; on no candidate or parse failure the body
stays `None` (the bare `except: pass`). -/
def extract_body (user_msg : String) : Option Json :=
  match firstJsonCandidate user_msg.data with
  | some cand =>
    match jsonLoads cand with
    | some v => some v
    | none => none
  | none => none

/-- Lines 191-209 of `node_api_exec`: the request body assembled for a
detected method — the extracted JSON if any, with a method-specific
default placeholder when the extracted body is falsy.  `time.time()` is
modelled by the integer argument `now`. -/
def assemble_request_body (user_msg : String) (detected_method : String)
    (now : Int) : Option Json :=
  if detected_method = "PUT" ∨ detected_method = "POST" ∨ detected_method = "PATCH" then
    let body := extract_body user_msg
    if pyNotOptJson body then
      if detected_method = "PUT" then
        some (Json.obj [("updated", Json.bool true), ("timestamp", Json.num now)])
      else if detected_method = "POST" then
        some (Json.obj [("created", Json.bool true), ("timestamp", Json.num now)])
      else if detected_method = "PATCH" then
        some (Json.obj [("patched", Json.bool true), ("timestamp", Json.num now)])
      else body
    else body
  else none

/-! ### Concrete fixtures used by witnesses and counterexamples -/

/-- Stub transport answering every call with a 200 response. -/
def stubOk : HttpCall → TransportOutcome := fun _ =>
  .response { status_code := 200, url := "https://api.example.test/r", text := "ok", headers := [] }

/-- Stub transport answering with a non-standard 999 status (as some
real servers do). -/
def stub999 : HttpCall → TransportOutcome := fun _ =>
  .response { status_code := 999, url := "https://api.example.test/r", text := "denied", headers := [] }

/-- Stub transport that raises `requests.exceptions.Timeout`. -/
def stubTimeout : HttpCall → TransportOutcome := fun _ => .timeout "read timed out"

/-- Stub transport that raises `requests.exceptions.ConnectionError`. -/
def stubConnFail : HttpCall → TransportOutcome := fun _ => .connectionError "connection refused"

/-- A DELETE request with no explicit body and one leftover query param. -/
def reqDelete : CustomApiExecuteRequest :=
  { base_url := "https://api.example.test/items/1", method := some "DELETE",
    query_params := [("force", "1")], param_key := none, param_value := none,
    body := none, headers := [] }

/-- A POST request whose body is a string that is not valid JSON. -/
def reqPost : CustomApiExecuteRequest :=
  { base_url := "https://api.example.test/items", method := some "POST",
    query_params := [], param_key := none, param_value := none,
    body := some (.strval "not json"), headers := [] }

/-- A POST request whose body is a string that does parse as JSON. -/
def reqPostJson : CustomApiExecuteRequest :=
  { base_url := "https://api.example.test/items", method := some "POST",
    query_params := [], param_key := none, param_value := none,
    body := some (.strval "\x7b\"a\": 1\x7d"), headers := [] }

/-- A GET request carrying a non-empty `body` field. -/
def reqGet : CustomApiExecuteRequest :=
  { base_url := "https://api.example.test/r", method := some "get",
    query_params := [("a", "b")], param_key := none, param_value := none,
    body := some (.structured (Json.obj [("x", Json.num 1)])), headers := [] }

/-- A request whose URL scheme is `ftp`. -/
def reqFtp : CustomApiExecuteRequest :=
  { base_url := "ftp://files.example.test/a", method := some "GET",
    query_params := [], param_key := none, param_value := none,
    body := none, headers := [] }

/-- A request with an unknown HTTP method. -/
def reqFoo : CustomApiExecuteRequest :=
  { base_url := "https://api.example.test/x", method := some "FOO",
    query_params := [("q", "1")], param_key := none, param_value := none,
    body := none, headers := [] }

/-- A `request_data` dict with method GET and a non-empty body. -/
def rdGet : RequestData :=
  { base_url := "https://api.example.test/r", method := "get",
    query_params := [("a", "b")], body := some (Json.obj [("x", Json.num 1)]),
    headers := [] }

/-- A `request_data` dict with an unknown method. -/
def rdFoo : RequestData :=
  { base_url := "https://api.example.test/x", method := "FOO",
    query_params := [("q", "1")], body := none, headers := [] }

/-! ### Helper lemmas -/

/-- `requests.Response.ok` holds exactly outside the `[400, 600)` range. -/
theorem response_ok_iff (s : Nat) :
    response_ok s = true ↔ ¬(400 ≤ s ∧ s < 600) := by
  unfold response_ok
  split <;> simp_all

/-- Any `response_data` actually returned by the outcome normalization of
`execute_custom_api` has its `success` flag determined by its own status
code being outside `[400, 600)`. -/
theorem dispatch_ok_success (o : TransportOutcome) (jb : Option (Option Json))
    (m : String) (hs : List (String × String)) (ps : List (String × String))
    (res : ResponseData) (h : dispatchOutcome o jb m hs ps = Except.ok res) :
    (res.success = true ↔ ¬(400 ≤ res.status ∧ res.status < 600)) := by
  cases o with
  | response r =>
    cases jb with
    | none => simp [dispatchOutcome] at h
    | some jbv =>
      simp only [dispatchOutcome, Except.ok.injEq] at h
      rw [← h]
      exact response_ok_iff r.status_code
  | timeout m2 => simp [dispatchOutcome] at h
  | connectionError m2 => simp [dispatchOutcome] at h
  | requestError m2 => simp [dispatchOutcome] at h
  | otherError m2 => simp [dispatchOutcome] at h

/-- Any result of `execute_api_request` with no `error` key has its
`success` flag determined by its own status code. -/
theorem finish_ok_success (o : TransportOutcome) (m : String)
    (h : (finish_request o m).error = none) :
    ((finish_request o m).success = true ↔
      ¬(400 ≤ (finish_request o m).status ∧ (finish_request o m).status < 600)) := by
  cases o with
  | response r => exact response_ok_iff r.status_code
  | timeout m2 => simp [finish_request] at h
  | connectionError m2 => simp [finish_request] at h
  | requestError m2 => simp [finish_request] at h
  | otherError m2 => simp [finish_request] at h

/-! ### C5 -/

/-- C5: a `target_url` whose scheme is neither http nor https is
rejected with the 400 "Only http/https URLs are allowed" error before
any network activity — the trace of transport calls is empty. -/
theorem c5_invalid_scheme_rejected_without_network
    (transport : HttpCall → TransportOutcome) (req : CustomApiExecuteRequest)
    (h : ¬(urlScheme req.base_url = "http" ∨ urlScheme req.base_url = "https")) :
    execute_custom_api transport req =
      (Except.error ⟨400, "Only http/https URLs are allowed"⟩, []) := by
  unfold execute_custom_api
  rw [if_neg h]

/-- Witness for C5 at the concrete `ftp://` request. -/
theorem c5_invalid_scheme_witness :
    execute_custom_api stubOk reqFtp =
      (Except.error ⟨400, "Only http/https URLs are allowed"⟩, []) :=
  c5_invalid_scheme_rejected_without_network stubOk reqFtp (by decide)

/-! ### C6 -/

/-- C6: with method GET, neither executor ever attaches a JSON or raw
body to the outgoing HTTP call, even when the `body` field is non-empty;
the call carries only the URL, query parameters and headers. -/
theorem c6_get_never_attaches_body (transport : HttpCall → TransportOutcome)
    (req : CustomApiExecuteRequest) (rd : RequestData) :
    (upperStr (pyOrStr req.method "GET") = "GET" →
      ((execute_custom_api transport req).2.all
        (fun c => c.json_body.isNone && c.body_data.isNone)) = true)
    ∧ (upperStr rd.method = "GET" →
      ((execute_api_request transport rd).2.all
        (fun c => c.json_body.isNone && c.body_data.isNone)) = true) := by
  constructor
  · intro hm
    unfold execute_custom_api
    split
    · simp [build_call, hm]
    · simp
  · intro hm
    unfold execute_api_request built_request_call
    simp [hm]

/-- Witness for C6 at concrete GET requests with non-empty bodies. -/
theorem c6_get_witness :
    ((execute_custom_api stubOk reqGet).2.all
      (fun c => c.json_body.isNone && c.body_data.isNone)) = true
    ∧ ((execute_api_request stubOk rdGet).2.all
      (fun c => c.json_body.isNone && c.body_data.isNone)) = true :=
  ⟨(c6_get_never_attaches_body stubOk reqGet rdGet).1 (by decide),
   (c6_get_never_attaches_body stubOk reqGet rdGet).2 (by decide)⟩

/-! ### C2 -/

/-- C2 counterexample: on a timeout (and likewise a connection failure),
`execute_custom_api` does not return a failed result with
`status_code = 0` — it raises an `HTTPException` (408 and 502
respectively), contradicting the claim for this executor. -/
theorem c2_counterexample :
    (execute_custom_api stubTimeout reqGet).1 =
      Except.error ⟨408, "API request timed out"⟩
    ∧ (execute_custom_api stubConnFail reqGet).1 =
      Except.error ⟨502, "Failed to connect to API endpoint"⟩ :=
  ⟨rfl, rfl⟩

/-- C2 amended: on timeout or connection failure, `execute_api_request`
returns the failed dict with `success = false`, `status = 0` and the
exception message as `error`, while `execute_custom_api` instead raises
`HTTPException` 408 (timeout) or 502 (connection failure). -/
theorem c2_amended_network_failures (req : CustomApiExecuteRequest)
    (rd : RequestData) (m : String)
    (hs : urlScheme req.base_url = "http" ∨ urlScheme req.base_url = "https") :
    ((execute_custom_api (fun _ => .timeout m) req).1 =
      Except.error ⟨408, "API request timed out"⟩)
    ∧ ((execute_custom_api (fun _ => .connectionError m) req).1 =
      Except.error ⟨502, "Failed to connect to API endpoint"⟩)
    ∧ ((execute_api_request (fun _ => .timeout m) rd).1 =
      { success := false, status := 0, url := none, method := none,
        data := none, text := none, error := some m })
    ∧ ((execute_api_request (fun _ => .connectionError m) rd).1 =
      { success := false, status := 0, url := none, method := none,
        data := none, text := none, error := some m }) := by
  refine ⟨?_, ?_, rfl, rfl⟩ <;> (unfold execute_custom_api; rw [if_pos hs]; rfl)

/-- Witness for the amended C2 at concrete requests. -/
theorem c2_amended_witness :
    ((execute_custom_api (fun _ => .timeout "read timed out") reqGet).1 =
      Except.error ⟨408, "API request timed out"⟩)
    ∧ ((execute_custom_api (fun _ => .connectionError "read timed out") reqGet).1 =
      Except.error ⟨502, "Failed to connect to API endpoint"⟩)
    ∧ ((execute_api_request (fun _ => .timeout "read timed out") rdGet).1 =
      { success := false, status := 0, url := none, method := none,
        data := none, text := none, error := some "read timed out" })
    ∧ ((execute_api_request (fun _ => .connectionError "read timed out") rdGet).1 =
      { success := false, status := 0, url := none, method := none,
        data := none, text := none, error := some "read timed out" }) :=
  c2_amended_network_failures reqGet rdGet "read timed out" (by decide)

/-! ### C3 -/

/-- C3 counterexample: a completed call with status 999 yields
`success = true` although 999 is not in `[200, 400)` — `requests.ok`
only fails for statuses in `[400, 600)`. -/
theorem c3_counterexample :
    ((execute_api_request stub999 rdGet).1.error = none)
    ∧ ((execute_api_request stub999 rdGet).1.status = 999)
    ∧ ((execute_api_request stub999 rdGet).1.success = true)
    ∧ ¬(200 ≤ 999 ∧ 999 < 400) :=
  ⟨rfl, rfl, rfl, by decide⟩

/-- C3 amended: for every completed call (a returned `response_data` for
`execute_custom_api`, a result with no `error` for
`execute_api_request`), `success` is true iff the status code is outside
`[400, 600)`; since it is a function of the status alone, it is
independent of whether the payload parses as JSON. -/
theorem c3_amended_success_range :
    (∀ (transport : HttpCall → TransportOutcome) (req : CustomApiExecuteRequest)
        (res : ResponseData), (execute_custom_api transport req).1 = Except.ok res →
      (res.success = true ↔ ¬(400 ≤ res.status ∧ res.status < 600)))
    ∧ (∀ (transport : HttpCall → TransportOutcome) (rd : RequestData),
        ((execute_api_request transport rd).1.error = none) →
      ((execute_api_request transport rd).1.success = true ↔
        ¬(400 ≤ (execute_api_request transport rd).1.status ∧
          (execute_api_request transport rd).1.status < 600))) := by
  constructor
  · intro transport req res h
    unfold execute_custom_api at h
    revert h
    split
    · intro h
      exact dispatch_ok_success _ _ _ _ _ res h
    · intro h
      simp at h
  · intro transport rd h
    exact finish_ok_success _ _ h

/-- Witness for the amended C3 at a concrete completed call. -/
theorem c3_amended_witness :
    ((execute_api_request stub999 rdFoo).1.success = true ↔
      ¬(400 ≤ (execute_api_request stub999 rdFoo).1.status ∧
        (execute_api_request stub999 rdFoo).1.status < 600)) :=
  c3_amended_success_range.2 stub999 rdFoo rfl

/-! ### C1 -/

/-- On the DELETE path with no explicit body and non-empty merged
params, `build_call` promotes the params to the JSON payload and passes
`params=None`. -/
theorem build_call_delete_no_body (req : CustomApiExecuteRequest)
    (hb : req.body = none) (headers : List (String × String))
    (a : String × String) (t : List (String × String)) :
    build_call req "DELETE" (a :: t) headers =
      ({ method := "DELETE", url := req.base_url, params := none,
         json_body := some (params_as_json (a :: t)), body_data := none,
         headers := headers }, some (some (params_as_json (a :: t)))) := by
  simp [build_call, hb, pyNotOptJson, params_as_json, Json.isTruthy]

/-- C1 counterexample: a DELETE request with no explicit body and the
leftover param `force=1` is sent with that param promoted to the JSON
request body and with no query string at all (`params=None`),
contradicting the claim. -/
theorem c1_counterexample :
    ((execute_custom_api stubOk reqDelete).2.map (fun c => (c.json_body, c.params)) =
      [(some (params_as_json [("force", "1")]), none)])
    ∧ ((execute_custom_api stubOk reqDelete).2.all (fun c => c.json_body.isNone)) = false :=
  ⟨rfl, rfl⟩

/-- C1 amended: for every DELETE request with no explicit body and
non-empty leftover params, the outgoing call carries those params as its
JSON body and carries no query string (and no raw payload). -/
theorem c1_amended_delete_promotes_params
    (transport : HttpCall → TransportOutcome) (req : CustomApiExecuteRequest)
    (hs : urlScheme req.base_url = "http" ∨ urlScheme req.base_url = "https")
    (hm : upperStr (pyOrStr req.method "GET") = "DELETE")
    (hb : req.body = none) (hp : merged_params req ≠ []) :
    (execute_custom_api transport req).2.map
        (fun c => (c.json_body, c.params, c.body_data)) =
      [(some (params_as_json (merged_params req)), none, none)] := by
  obtain ⟨a, t, ht⟩ := List.exists_cons_of_ne_nil hp
  unfold execute_custom_api
  rw [if_pos hs]
  simp only [hm, ht, build_call_delete_no_body req hb]
  rfl

/-- Witness for the amended C1 at the concrete DELETE request. -/
theorem c1_amended_witness :
    (execute_custom_api stubOk reqDelete).2.map
        (fun c => (c.json_body, c.params, c.body_data)) =
      [(some (params_as_json (merged_params reqDelete)), none, none)] :=
  c1_amended_delete_promotes_params stubOk reqDelete (by decide) (by decide) rfl (by decide)

/-! ### C4 -/

/-- Membership of an exact header pair in a header dict. -/
def containsHeaderPair (l : List (String × String)) (k v : String) : Bool :=
  l.any (fun p => p.1 == k && p.2 == v)

/-- Appending a pair makes it a member. -/
theorem containsHeaderPair_append_self (l : List (String × String)) (k v : String) :
    containsHeaderPair (l ++ [(k, v)]) k v = true := by
  simp [containsHeaderPair]

/-- `setDefaultHeader` preserves existing header pairs. -/
theorem containsHeaderPair_setDefault (l : List (String × String)) (k2 v2 k v : String)
    (h : containsHeaderPair l k v = true) :
    containsHeaderPair (setDefaultHeader l k2 v2) k v = true := by
  unfold setDefaultHeader
  split
  · exact h
  · unfold containsHeaderPair at h ⊢
    simp [List.any_append, h]

/-- C4 counterexample: a POST whose string body `"not json"` fails to
parse is sent as a raw text payload, yet the request carries
`Content-Type: application/json` — the header is injected before the
parse attempt, contradicting the claim's final clause. -/
theorem c4_counterexample :
    ((execute_custom_api stubOk reqPost).2.map (fun c => (c.json_body, c.body_data)) =
      [((none : Option Json), some "not json")])
    ∧ ((execute_custom_api stubOk reqPost).2.all
        (fun c => containsHeaderPair c.headers "Content-Type" "application/json")) = true
    ∧ ((execute_custom_api stubOk reqPost).2.length = 1) :=
  ⟨rfl, rfl, rfl⟩

/-- C4 amended: for POST/PUT/PATCH with a string body `s`, the Executor
first parses `s` as JSON — on success the parsed value is the JSON
payload, on failure `s` is the raw text payload — but whenever `s` is
non-empty and the caller supplied no Content-Type, the request carries
`Content-Type: application/json` regardless of the parse outcome (the
header is chosen before parsing). -/
theorem c4_amended_string_body
    (transport : HttpCall → TransportOutcome) (req : CustomApiExecuteRequest)
    (s : String)
    (hs : urlScheme req.base_url = "http" ∨ urlScheme req.base_url = "https")
    (hm : upperStr (pyOrStr req.method "GET") = "POST"
      ∨ upperStr (pyOrStr req.method "GET") = "PUT"
      ∨ upperStr (pyOrStr req.method "GET") = "PATCH")
    (hb : req.body = some (Body.strval s)) :
    ((execute_custom_api transport req).2.map
        (fun c => (c.json_body, c.body_data, c.params)) =
      [(jsonLoads s,
        (if (jsonLoads s).isSome then none else some s : Option String),
        (none : Option (List (String × String))))])
    ∧ (s ≠ "" → containsKey req.headers "Content-Type" = false →
        ((execute_custom_api transport req).2.all
          (fun c => containsHeaderPair c.headers "Content-Type" "application/json")) = true) := by
  constructor
  · unfold execute_custom_api
    rw [if_pos hs]
    rcases hm with hm | hm | hm <;>
      simp only [hm, build_call, hb] <;>
      cases hj : jsonLoads s <;>
      simp [hj]
  · intro hsne hct
    unfold execute_custom_api
    rw [if_pos hs]
    have htr : truthyOptBody req.body = true := by
      rw [hb]; simp [truthyOptBody, hsne]
    have hmr : (upperStr (pyOrStr req.method "GET") = "POST"
        ∨ upperStr (pyOrStr req.method "GET") = "PUT"
        ∨ upperStr (pyOrStr req.method "GET") = "PATCH") ∧ truthyOptBody req.body = true :=
      ⟨hm, htr⟩
    simp only [if_pos hmr]
    have hcore : containsHeaderPair
        (setDefaultHeader req.headers "Content-Type" "application/json")
        "Content-Type" "application/json" = true := by
      unfold setDefaultHeader
      rw [hct]
      simp only [Bool.false_eq_true, if_false]
      exact containsHeaderPair_append_self req.headers _ _
    have hfin := containsHeaderPair_setDefault _ "User-Agent" "Multi-Agent-Chatbot/1.0"
      "Content-Type" "application/json" hcore
    rcases hm with hm | hm | hm <;>
      simp only [hm, build_call, hb] <;>
      cases hj : jsonLoads s <;>
      simp [hj, hfin]

/-- Witness for the amended C4 at a failing parse (`"not json"`) and a
succeeding parse (`\x7b"a": 1\x7d`). -/
theorem c4_amended_witness :
    (((execute_custom_api stubOk reqPost).2.map
        (fun c => (c.json_body, c.body_data, c.params)) =
      [(jsonLoads "not json",
        (if (jsonLoads "not json").isSome then none else some "not json" : Option String),
        (none : Option (List (String × String))))])
    ∧ ((execute_custom_api stubOk reqPost).2.all
        (fun c => containsHeaderPair c.headers "Content-Type" "application/json")) = true)
    ∧ ((execute_custom_api stubOk reqPostJson).2.map
        (fun c => (c.json_body, c.body_data, c.params)) =
      [(jsonLoads "\x7b\"a\": 1\x7d",
        (if (jsonLoads "\x7b\"a\": 1\x7d").isSome then none
         else some "\x7b\"a\": 1\x7d" : Option String),
        (none : Option (List (String × String))))]) :=
  ⟨⟨(c4_amended_string_body stubOk reqPost "not json" (by decide)
        (Or.inl (by decide)) rfl).1,
    (c4_amended_string_body stubOk reqPost "not json" (by decide)
        (Or.inl (by decide)) rfl).2 (by decide) (by decide)⟩,
   (c4_amended_string_body stubOk reqPostJson "\x7b\"a\": 1\x7d" (by decide)
        (Or.inl (by decide)) rfl).1⟩

/-! ### C7 -/

/-- C7: the detection loop of `node_api_exec` coincides with the spec's
rule — evaluate the method categories in the fixed priority order PUT,
POST, PATCH, DELETE, GET and take the first with any keyword match — and
in particular an utterance containing both `modify` and `create` yields
PUT. -/
theorem c7_priority_order :
    (∀ msg, detect_method msg = priority_detect msg)
    ∧ detect_method "please modify and create the record" = some "PUT" := by
  refine ⟨fun msg => ?_, by decide⟩
  unfold detect_method priority_detect api_keywords
  cases h1 : kwHit msg ["put", "update", "modify", "change", "edit"] <;>
  cases h2 : kwHit msg ["post", "create", "add", "submit", "send"] <;>
  cases h3 : kwHit msg ["patch", "partial", "modify"] <;>
  cases h4 : kwHit msg ["delete", "remove", "destroy"] <;>
  cases h5 : kwHit msg ["get", "fetch", "retrieve", "read"] <;>
  simp [List.find?, h1, h2, h3, h4, h5] <;> decide

/-! ### C8 -/

/-- C8: whenever a PUT (resp. POST, PATCH) request is assembled and no
body was extracted from the message, the default placeholder
`\x7b"updated": true, "timestamp": now\x7d` (resp. `created`/`patched`)
is attached. -/
theorem c8_default_body (msg : String) (now : Int)
    (h : extract_body msg = none) :
    assemble_request_body msg "PUT" now =
      some (Json.obj [("updated", Json.bool true), ("timestamp", Json.num now)])
    ∧ assemble_request_body msg "POST" now =
      some (Json.obj [("created", Json.bool true), ("timestamp", Json.num now)])
    ∧ assemble_request_body msg "PATCH" now =
      some (Json.obj [("patched", Json.bool true), ("timestamp", Json.num now)]) := by
  refine ⟨?_, ?_, ?_⟩ <;> simp [assemble_request_body, h, pyNotOptJson]

/-- Witness for C8 at a concrete message containing no JSON fragment. -/
theorem c8_default_body_witness :
    assemble_request_body "update the user profile" "PUT" 0 =
      some (Json.obj [("updated", Json.bool true), ("timestamp", Json.num 0)])
    ∧ assemble_request_body "update the user profile" "POST" 0 =
      some (Json.obj [("created", Json.bool true), ("timestamp", Json.num 0)])
    ∧ assemble_request_body "update the user profile" "PATCH" 0 =
      some (Json.obj [("patched", Json.bool true), ("timestamp", Json.num 0)]) :=
  c8_default_body "update the user profile" 0 rfl

/-! ### C9 -/

/-- C9, evaluated at the failing input: with the unknown method `FOO`,
both executors do silently fall back to issuing a GET carrying the given
query parameters and headers; `execute_api_request` then returns its
normal result, but `execute_custom_api` — after the call completed —
raises `HTTPException` 500, because the response-assembly line
`if json_body:` reads a local that the GET/fallback branches never
assign.  The repository's own tests expect this path to succeed
(`api_executor_comprehensive_test.py` sends GET requests through
`/api/custom-api/execute` and expects a 200 with `success`), so the
error, not the claim, is the defect. -/
theorem c9_unknown_method_eval :
    ((execute_custom_api stubOk reqFoo).2 =
      [{ method := "GET", url := "https://api.example.test/x",
         params := some [("q", "1")], json_body := none, body_data := none,
         headers := [("User-Agent", "Multi-Agent-Chatbot/1.0")] }])
    ∧ ((execute_custom_api stubOk reqFoo).1 =
      Except.error ⟨500, "Internal error: " ++ unboundLocalDetail⟩)
    ∧ ((execute_api_request stubOk rdFoo).1 =
      { success := true, status := 200, url := some "https://api.example.test/r",
        method := some "FOO", data := none, text := some "ok", error := none })
    ∧ ((execute_api_request stubOk rdFoo).2 =
      [{ method := "GET", url := "https://api.example.test/x",
         params := some [("q", "1")], json_body := none, body_data := none,
         headers := [("User-Agent", "Multi-Agent-Chatbot/1.0")] }]) :=
  ⟨rfl, rfl, rfl, rfl⟩

/-! ### C10 -/

/-- C10: keyword detection is substring containment on the lower-cased
utterance, not whole-word matching — the one-word utterance `computer`
contains no method keyword as a word, yet PUT is detected because
`computer` contains the substring `put`. -/
theorem c10_substring_matching :
    detect_method "computer" = some "PUT"
    ∧ ∀ kw ∈ (api_keywords.map Prod.snd).flatten, kw ≠ "computer" := by
  exact ⟨by decide, by decide⟩
